import Mathlib

/-
  Verification of the keyword-driven UI test automation harness
  (three framework variants: framework/ with Playwright, selenium_framework/,
  and selenium_behave_framework/).

  The Python sources are shallowly embedded: pure control flow is translated
  directly; every call into the browser-automation capability (Playwright or
  Selenium) is modelled by an environment oracle, with a raised exception
  represented as the error case of Except (catching code is translated as a
  match on that Except).  Python string operations are embedded as functions
  on the underlying character list so that all definitions evaluate inside
  the kernel; for the ASCII data these programs handle they agree with the
  Python semantics of upper/lower/strip/split and of the in operator.
-/

/-- Python list containment scan: true when needle occurs contiguously in hay. -/
def listContains (hay needle : List Char) : Bool :=
  needle.isPrefixOf hay ||
    match hay with
    | [] => false
    | _ :: t => listContains t needle

/-- Embedding of the Python expression needle in hay on strings. -/
def strIn (needle hay : String) : Bool := listContains hay.data needle.data

/-- A single-quote character, used to rebuild the message literals of the source. -/
def squote : String := ⟨[Char.ofNat 39]⟩

/-- Embedding of the Python str.upper method (ASCII). -/
def pyUpper (s : String) : String := ⟨s.data.map Char.toUpper⟩

/-- Embedding of the Python str.lower method (ASCII). -/
def pyLower (s : String) : String := ⟨s.data.map Char.toLower⟩

/-- Strip leading and trailing whitespace from a character list. -/
def pyStripList (l : List Char) : List Char :=
  ((l.dropWhile Char.isWhitespace).reverse.dropWhile Char.isWhitespace).reverse

/-- Embedding of the Python str.strip method. -/
def pyStrip (s : String) : String := ⟨pyStripList s.data⟩

/-- Split a character list at every comma, as Python str.split with a comma does. -/
def splitCommaList : List Char → List (List Char)
  | [] => [[]]
  | c :: rest =>
    let r := splitCommaList rest
    if c = ',' then [] :: r
    else
      match r with
      | [] => [[c]]
      | h :: t => (c :: h) :: t

/-- Embedding of the Python expression s.split on a comma. -/
def pySplitComma (s : String) : List String := (splitCommaList s.data).map (fun l => ⟨l⟩)

/-- Python division raises ZeroDivisionError on a zero divisor; the fallible
    division is embedded into Option. -/
def pyDivQ (a b : ℚ) : Option ℚ := if b = 0 then none else some (a / b)

/-- Embedding of the Python generator sum, sum of 1 for each member satisfying p. -/
def sumCount {α : Type} (p : α → Bool) (l : List α) : Nat :=
  l.foldl (fun acc r => if p r then acc + 1 else acc) 0

/-- Session lifecycle events recorded by the embeddings of the executors:
    opened when the browser session is acquired, closed when it is torn down. -/
inductive SessionEvent
  | opened
  | closed
deriving Repr, DecidableEq, BEq

/-- A session is released when every acquisition has a matching teardown. -/
def sessionReleased (ev : List SessionEvent) : Bool :=
  ev.count .opened == ev.count .closed

/-- Shape of the argument list passed to a resolved keyword handler. -/
inductive CallShape
  | noArgs
  | locatorOnly
  | valueOnly
  | both
deriving Repr, DecidableEq

/-- True when every element of the list except possibly the last is true.
    This is the trace shape produced by a stop-on-first-failure loop. -/
def okThenMaybeFail : List Bool → Bool
  | [] => true
  | [_] => true
  | b :: rest => b && okThenMaybeFail rest

namespace Fw

/- Embedding of the framework/ variant (Playwright):
   framework/keywords/keyword_engine.py, framework/core/excel_reader.py,
   framework/core/test_executor.py, framework/utils/report_generator.py. -/

/-- A step flattened from a screen sheet (excel_reader.read_screen_sheet). -/
structure Step where
  field : String
  locator : String
  keyword : String
  value : String
deriving Repr, DecidableEq

/-- Oracle for the Playwright page calls made by the keyword methods.
    An Except error is a raised Playwright exception with its text; a
    text_content call that returns None also lands in the error case, because
    the subsequent in test raises TypeError inside the same try block. -/
structure PageEnv where
  text_content : String → Except String String
  title : Except String String
  url : Except String String
  act : String → String → String → Bool × String

/-- The keys of keyword_map in KeywordEngine.execute_keyword (lines 55 to 84). -/
def keyword_names : List String :=
  ["NAVIGATE", "CLICK", "ENTER", "SELECT", "VERIFY_TEXT", "VERIFY_TITLE",
   "VERIFY_URL", "WAIT", "CLEAR", "CHECK", "UNCHECK", "HOVER", "DOUBLE_CLICK",
   "RIGHT_CLICK", "PRESS_KEY", "GET_TEXT", "IS_VISIBLE", "IS_ENABLED",
   "SCROLL_TO", "SWITCH_TO_FRAME", "SWITCH_TO_DEFAULT", "ACCEPT_ALERT",
   "DISMISS_ALERT", "REFRESH", "GO_BACK", "GO_FORWARD", "CLOSE_TAB",
   "WAIT_FOR_ELEMENT"]

/-- KeywordEngine.verify_text (lines 136 to 146): read the element text and
    test substring containment of the expected text in the actual text. -/
def verify_text (env : PageEnv) (locator expected_text : String) : Bool × String :=
  match env.text_content locator with
  | .ok actual_text =>
    if strIn expected_text actual_text then
      (true, "Text verification passed: " ++ squote ++ expected_text ++ squote ++
        " found in " ++ squote ++ actual_text ++ squote)
    else
      (false, "Text verification failed: Expected " ++ squote ++ expected_text ++ squote ++
        ", but found " ++ squote ++ actual_text ++ squote)
  | .error e => (false, "Failed to verify text: " ++ e)

/-- KeywordEngine.verify_title (lines 148 to 157).  The expected title arrives
    through the locator parameter position of the dispatch call. -/
def verify_title (env : PageEnv) (expected_title : String) : Bool × String :=
  match env.title with
  | .ok actual_title =>
    if strIn expected_title actual_title then
      (true, "Title verification passed: " ++ squote ++ expected_title ++ squote ++
        " found in " ++ squote ++ actual_title ++ squote)
    else
      (false, "Title verification failed: Expected " ++ squote ++ expected_title ++ squote ++
        ", but found " ++ squote ++ actual_title ++ squote)
  | .error e => (false, "Failed to verify title: " ++ e)

/-- KeywordEngine.verify_url (lines 159 to 168). -/
def verify_url (env : PageEnv) (expected_url : String) : Bool × String :=
  match env.url with
  | .ok actual_url =>
    if strIn expected_url actual_url then
      (true, "URL verification passed: " ++ squote ++ expected_url ++ squote ++
        " found in " ++ squote ++ actual_url ++ squote)
    else
      (false, "URL verification failed: Expected " ++ squote ++ expected_url ++ squote ++
        ", but found " ++ squote ++ actual_url ++ squote)
  | .error e => (false, "Failed to verify URL: " ++ e)

/-- Line 87 of execute_keyword: a resolved handler is always invoked with both
    the locator and the value, keyword_map at keyword applied to locator and
    value; an unresolved keyword reaches no handler. -/
def handler_args (keyword locator value : String) : Option (String × String) :=
  if pyStrip (pyUpper keyword) ∈ keyword_names then some (locator, value) else none

/-- Dispatch of a resolved keyword to its method.  The three verification
    keywords are embedded concretely; every other method wraps one Playwright
    call in a try block and returns a success flag and message, which the
    act oracle of the environment supplies. -/
def run_handler (env : PageEnv) (k locator value : String) : Bool × String :=
  match k with
  | "VERIFY_TEXT" => verify_text env locator value
  | "VERIFY_TITLE" => verify_title env locator
  | "VERIFY_URL" => verify_url env locator
  | _ => env.act k locator value

/-- KeywordEngine.execute_keyword (lines 45 to 97): normalize the keyword,
    look it up in keyword_map, invoke the method with locator and value, or
    report an unsupported keyword as a failed outcome.  The function is total:
    no exception escapes this boundary. -/
def execute_keyword (env : PageEnv) (keyword locator value : String) : Bool × String :=
  let k := pyStrip (pyUpper keyword)
  match handler_args keyword locator value with
  | some (l, v) => run_handler env k l v
  | none => (false, "Keyword " ++ squote ++ k ++ squote ++ " is not supported")

/-- One row of the master sheet, already stringified by the reader. -/
structure MasterRow where
  test_case_id : String
  execute : String
  screen_flow : String
  description : String
deriving Repr, DecidableEq

/-- Lines 63 to 64 of excel_reader.read_master_sheet: the Execute cell is
    stripped, upper-cased and compared against YES and Y. -/
def execute_selected (execute_value : String) : Bool :=
  pyUpper (pyStrip execute_value) ∈ (["YES", "Y"] : List String)

/-- excel_reader.read_master_sheet (lines 54 to 70): keep exactly the rows
    whose Execute flag passes the test above. -/
def read_master_sheet (rows : List MasterRow) : List MasterRow :=
  rows.filter (fun r => execute_selected r.execute)

/-- Data of one screen sheet: its name and the parsed test cases, each being
    the step list built from one keyword-row and value-row pair. -/
structure ScreenData where
  screen_name : String
  test_cases : List (List Step)
deriving Repr, DecidableEq

/-- excel_reader.get_test_data_for_flow (lines 165 to 190): split the flow on
    commas, strip each name, read each screen sheet, and silently skip (with a
    warning) every screen the reader cannot find.  The per-run cache does not
    change the result because read_screen_sheet is deterministic. -/
def resolveScreens (read_screen_sheet : String → Option ScreenData)
    (names : List String) : List ScreenData :=
  names.filterMap read_screen_sheet

def get_test_data_for_flow (read_screen_sheet : String → Option ScreenData)
    (screen_flow : String) : List ScreenData :=
  resolveScreens read_screen_sheet ((pySplitComma screen_flow).map pyStrip)

/-- One executed step as recorded by the step loop. -/
structure StepRecord where
  step : Step
  success : Bool
  message : String
deriving Repr, DecidableEq

/-- Outcome of the screen and step loops of execute_test_case. -/
structure RunOut where
  counter : Nat
  recs : List StepRecord
  failed : Bool
  error_message : String
deriving Repr

/-- The inner step loop of test_executor.execute_test_case (lines 93 to 116):
    each step is dispatched to the keyword engine; on the first failure the
    loop records the outcome and breaks.  The exec oracle is indexed by a
    global invocation counter so that outcomes may depend on history. -/
def runSteps (exec : Nat → Step → Bool × String) : Nat → List Step → RunOut
  | n, [] => ⟨n, [], false, ""⟩
  | n, s :: rest =>
    match exec n s with
    | (true, msg) =>
      let o := runSteps exec (n + 1) rest
      ⟨o.counter, ⟨s, true, msg⟩ :: o.recs, o.failed, o.error_message⟩
    | (false, msg) => ⟨n + 1, [⟨s, false, msg⟩], true, msg⟩

/-- The outer screen loop (lines 84 to 119): only the first test case of each
    screen is used (line 90); a screen without test cases contributes nothing;
    after a failed screen the loop breaks (lines 118 to 119). -/
def runScreens (exec : Nat → Step → Bool × String) : Nat → List ScreenData → RunOut
  | n, [] => ⟨n, [], false, ""⟩
  | n, sd :: rest =>
    match sd.test_cases with
    | [] => runScreens exec n rest
    | tc :: _ =>
      let o := runSteps exec n tc
      if o.failed then o
      else
        let o2 := runScreens exec o.counter rest
        ⟨o2.counter, o.recs ++ o2.recs, o2.failed, o2.error_message⟩

/-- Environment of one test case run: whether the browser starts, and the
    browser-dependent outcome of each dispatched step. -/
structure Env where
  start_browser : Bool
  exec : Nat → Step → Bool × String

/-- The report entry handed to report_generator.add_test_result (the
    screenshot path and wall-clock timestamp carry no verified content). -/
structure ReportEntry where
  status : String
  error_message : String
deriving Repr, DecidableEq

/-- Observable result of test_executor.execute_test_case: the returned pair,
    the session lifecycle events, the recorded report entry if any, and the
    trace of invoked steps. -/
structure Result where
  returned_success : Bool
  returned_message : String
  session_events : List SessionEvent
  report : Option ReportEntry
  trace : List StepRecord
deriving Repr

/-- test_executor.execute_test_case (lines 52 to 152).  Paths: browser start
    failure returns early with no session and no report entry; an empty flow
    resolution closes the browser and returns early with no report entry;
    otherwise the screens run, the browser is closed, and a report entry is
    recorded with the overall status.  take_screenshot catches its own
    exceptions, so it cannot divert the control flow. -/
def execute_test_case (env : Env) (read_screen_sheet : String → Option ScreenData)
    (screen_flow : String) : Result :=
  if env.start_browser = false then
    { returned_success := false, returned_message := "Browser start failed"
      session_events := [], report := none, trace := [] }
  else
    let flow_data := get_test_data_for_flow read_screen_sheet screen_flow
    if flow_data.isEmpty then
      { returned_success := false
        returned_message := "No data for screen flow: " ++ screen_flow
        session_events := [.opened, .closed], report := none, trace := [] }
    else
      let o := runScreens env.exec 0 flow_data
      let overall_status := if o.failed then "FAIL" else "PASS"
      { returned_success := overall_status == "PASS"
        returned_message := o.error_message
        session_events := [.opened, .closed]
        report := some { status := overall_status, error_message := o.error_message }
        trace := o.recs }

/-- Restriction of a screen to its first keyword-row and value-row pair, the
    only one line 90 of execute_test_case ever uses. -/
def first_pair_only (sd : ScreenData) : ScreenData :=
  { sd with test_cases := sd.test_cases.take 1 }

/-- The run summary of report_generator.generate_report (lines 38 to 41). -/
structure Summary where
  total : Nat
  passed : Nat
  failed : Nat
  pass_percentage : ℚ
deriving Repr

/-- Lines 38 to 41: total, the two generator-sum counts, and the pass
    percentage guarded by the positivity test on the total. -/
def generate_report_summary (results : List ReportEntry) : Summary :=
  let total := results.length
  let passed := sumCount (fun r => r.status == "PASS") results
  let failed := sumCount (fun r => r.status == "FAIL") results
  { total := total, passed := passed, failed := failed
    pass_percentage := if total > 0 then (passed : ℚ) / (total : ℚ) * 100 else 0 }

end Fw

namespace Sv

/- Embedding of the selenium_framework/ variant:
   framework/keywords/keyword_engine.py, framework/core/excel_reader.py and
   framework/core/test_executor.py under selenium_framework/. -/

/-- A parsed test step (excel_reader.parse_test_steps output dictionary). -/
structure Step where
  field_name : String
  keyword : String
  locator : String
  value : String
deriving Repr, DecidableEq

/-- The keys of the keyword map built in the KeywordEngine constructor
    (lines 35 to 96). -/
def keyword_names : List String :=
  ["NAVIGATE", "REFRESH", "GO_BACK", "GO_FORWARD", "ENTER", "CLEAR", "SELECT",
   "CLICK", "DOUBLE_CLICK", "RIGHT_CLICK", "VERIFY_TEXT", "VERIFY_TITLE",
   "VERIFY_URL", "VERIFY_ELEMENT", "WAIT", "WAIT_FOR_ELEMENT", "CHECK",
   "UNCHECK", "HOVER", "SCROLL_TO", "DRAG_DROP", "PRESS_KEY",
   "SWITCH_TO_FRAME", "SWITCH_TO_DEFAULT", "ACCEPT_ALERT", "DISMISS_ALERT",
   "GET_ALERT_TEXT", "CLOSE_TAB", "SWITCH_WINDOW", "GET_TEXT",
   "GET_ATTRIBUTE", "IS_VISIBLE", "IS_ENABLED", "IS_SELECTED",
   "EXECUTE_SCRIPT"]

/-- Lines 117 to 118 of execute_keyword: a resolved keyword method is always
    invoked with both the locator and the value. -/
def handler_args (keyword locator value : String) : Option (String × String) :=
  if pyUpper (pyStrip keyword) ∈ keyword_names then some (locator, value) else none

/-- KeywordEngine method verify text (lines 280 to 296): empty locator is
    rejected, a missing element is reported, and otherwise containment is
    tested after lower-casing both the expected value and the element text. -/
def verify_text (get_element : String → Bool) (element_text : String → Except String String)
    (locator value : String) : Bool × String :=
  if locator = "" then (false, "No locator provided")
  else if get_element locator = false then (false, "Element not found: " ++ locator)
  else
    match element_text locator with
    | .ok actual =>
      if strIn (pyLower value) (pyLower actual) then
        (true, "Text verified: " ++ squote ++ value ++ squote ++
          " found in " ++ squote ++ actual ++ squote)
      else
        (false, "Text mismatch: Expected " ++ squote ++ value ++ squote ++
          ", Found " ++ squote ++ actual ++ squote)
    | .error e => (false, "Failed to verify text: " ++ e)

/-- Oracle for the Selenium driver calls of the engine. -/
structure EngineEnv where
  get_element : String → Bool
  element_text : String → Except String String
  act : String → String → String → Bool × String

/-- KeywordEngine.execute_keyword (lines 98 to 125): normalize, look up the
    keyword map, report an unknown keyword, otherwise invoke the method with
    locator and value.  The function is total: the outer try block stops any
    exception at this boundary. -/
def execute_keyword (env : EngineEnv) (keyword locator value : String) : Bool × String :=
  let k := pyUpper (pyStrip keyword)
  match handler_args keyword locator value with
  | some (l, v) =>
    if k = "VERIFY_TEXT" then verify_text env.get_element env.element_text l v
    else env.act k l v
  | none => (false, "Unknown keyword: " ++ k)

/-- One row of the master sheet, stringified. -/
structure MasterRow where
  test_case_id : String
  execute : String
  screen_flow : String
  description : String
deriving Repr, DecidableEq

/-- Line 83 of excel_reader.read_master_sheet: the Execute cell is stripped,
    lower-cased and compared against yes, y, true and 1. -/
def execute_selected (execute_value : String) : Bool :=
  pyLower (pyStrip execute_value) ∈ (["yes", "y", "true", "1"] : List String)

/-- excel_reader.read_master_sheet (lines 75 to 87): keep the rows marked for
    execution. -/
def read_master_sheet (rows : List MasterRow) : List MasterRow :=
  rows.filter (fun r => execute_selected r.execute)

/-- Raw screen sheet content (excel_reader.read_screen_sheet output): field
    names, locators, and the nonempty data rows from row 3 on. -/
structure ScreenData where
  screen_name : String
  field_names : List String
  locators : List String
  test_data : List (List String)
deriving Repr, DecidableEq

/-- Lines 201 to 202 of parse_test_steps: the data rows are consumed two at a
    time as keyword-row and value-row pairs; a trailing unpaired row is
    dropped. -/
def pairRows : List (List String) → List (List String × List String)
  | a :: b :: rest => (a, b) :: pairRows rest
  | _ => []

/-- Lines 207 to 222 of parse_test_steps: one step per column that carries a
    keyword, with keyword stripped and upper-cased, locator and value
    stripped. -/
def parse_pair (field_names locators : List String)
    (keywords_row values_row : List String) : List Step :=
  (List.range field_names.length).filterMap (fun col_idx =>
    let keyword := keywords_row.getD col_idx ""
    let value := values_row.getD col_idx ""
    let locator := locators.getD col_idx ""
    let field_name := field_names.getD col_idx ""
    if keyword = "" then none
    else some { field_name := field_name, keyword := pyUpper (pyStrip keyword)
                locator := pyStrip locator, value := pyStrip value })

/-- excel_reader.parse_test_steps (lines 184 to 228): every pair of data rows
    contributes its steps, concatenated in pair order. -/
def parse_test_steps (sd : ScreenData) : List Step :=
  ((pairRows sd.test_data).map (fun p => parse_pair sd.field_names sd.locators p.1 p.2)).flatten

/-- excel_reader.get_test_data_for_flow (lines 151 to 182): split on commas,
    strip, drop empty names, and skip unreadable screens with a warning. -/
def get_test_data_for_flow (read_screen_sheet : String → Option ScreenData)
    (screen_flow : String) : List ScreenData :=
  (((pySplitComma screen_flow).map pyStrip).filter (fun s => s ≠ "")).filterMap
    read_screen_sheet

/-- One executed step as logged by the step loop. -/
structure StepRecord where
  step : Step
  success : Bool
  message : String
deriving Repr, DecidableEq

/-- Outcome of the screen and step loops of execute_test_case. -/
structure RunOut where
  counter : Nat
  recs : List StepRecord
  test_passed : Bool
  failure_reason : String
deriving Repr

/-- The step loop of test_executor.execute_test_case (lines 147 to 166): steps
    are numbered from 1 within the screen; the first failure sets the failure
    reason and breaks. -/
def runSvSteps (exec : Nat → Step → Bool × String) : Nat → Nat → List Step → RunOut
  | n, _, [] => ⟨n, [], true, ""⟩
  | n, idx, st :: rest =>
    match exec n st with
    | (true, msg) =>
      let o := runSvSteps exec (n + 1) (idx + 1) rest
      ⟨o.counter, ⟨st, true, msg⟩ :: o.recs, o.test_passed, o.failure_reason⟩
    | (false, msg) =>
      ⟨n + 1, [⟨st, false, msg⟩], false,
        "Step " ++ toString idx ++ " failed: " ++ msg⟩

/-- The screen loop (lines 134 to 170): a screen without parsed steps is
    skipped with a warning; after a failed screen the loop breaks. -/
def runSvScreens (exec : Nat → Step → Bool × String) : Nat → List ScreenData → RunOut
  | n, [] => ⟨n, [], true, ""⟩
  | n, sd :: rest =>
    let test_steps := parse_test_steps sd
    if test_steps.isEmpty then runSvScreens exec n rest
    else
      let o := runSvSteps exec n 1 test_steps
      if o.test_passed then
        let o2 := runSvScreens exec o.counter rest
        ⟨o2.counter, o.recs ++ o2.recs, o2.test_passed, o2.failure_reason⟩
      else o

/-- Environment of one test case run. -/
structure Env where
  start_browser : Bool
  exec : Nat → Step → Bool × String

/-- The arguments handed to report_generator.add_test_result (lines 205 to
    212); the duration argument is the literal 0 in the source. -/
structure ReportEntry where
  test_case_id : String
  description : String
  status : String
  duration : Nat
  error_message : String
deriving Repr, DecidableEq

/-- Observable result of test_executor.execute_test_case. -/
structure Result where
  test_passed : Bool
  failure_reason : String
  session_events : List SessionEvent
  report : ReportEntry
  trace : List StepRecord
deriving Repr

/-- test_executor.execute_test_case (lines 97 to 214).  A browser start
    failure raises, is caught, and marks the test failed with no session ever
    acquired; an empty flow resolution raises and is caught likewise after the
    session opened; otherwise the screens run.  The finally block closes the
    browser on every path, and add_test_result always records an entry with
    status PASS or FAIL and duration 0. -/
def execute_test_case (env : Env) (read_screen_sheet : String → Option ScreenData)
    (tc_id description screen_flow : String) : Result :=
  if env.start_browser = false then
    { test_passed := false, failure_reason := "Failed to start browser"
      session_events := []
      report := { test_case_id := tc_id, description := description, status := "FAIL"
                  duration := 0, error_message := "Failed to start browser" }
      trace := [] }
  else
    let flow_data := get_test_data_for_flow read_screen_sheet screen_flow
    if flow_data.isEmpty then
      let reason := "No test data found for screen flow: " ++ screen_flow
      { test_passed := false, failure_reason := reason
        session_events := [.opened, .closed]
        report := { test_case_id := tc_id, description := description, status := "FAIL"
                    duration := 0, error_message := reason }
        trace := [] }
    else
      let o := runSvScreens env.exec 0 flow_data
      { test_passed := o.test_passed, failure_reason := o.failure_reason
        session_events := [.opened, .closed]
        report := { test_case_id := tc_id, description := description
                    status := if o.test_passed then "PASS" else "FAIL"
                    duration := 0
                    error_message := if o.test_passed then "" else o.failure_reason }
        trace := o.recs }

/-- The summary block of test_executor.execute_all_tests (lines 250 to 258);
    the pass rate divides the passed counter by the total with no guard. -/
structure Summary where
  total : Nat
  passed : Nat
  failed : Nat
  pass_rate : Option ℚ
deriving Repr

/-- Line 256: passed divided by total, times 100, with Python division
    embedded into Option. -/
def pass_rate_expr (passed total : Nat) : Option ℚ :=
  (pyDivQ (passed : ℚ) (total : ℚ)).map (fun q => q * 100)

/-- test_executor.execute_all_tests (lines 216 to 281): when the master sheet
    selects no test case the run aborts during setup and no summary is
    printed; otherwise each selected test case increments exactly one of the
    two counters and the summary block runs. -/
def execute_all_tests (rows : List MasterRow) (outcome : Nat → Bool) : Option Summary :=
  let test_cases := read_master_sheet rows
  if test_cases.isEmpty then none
  else
    let total := test_cases.length
    let passed := sumCount outcome (List.range total)
    let failed := sumCount (fun i => !(outcome i)) (List.range total)
    some { total := total, passed := passed, failed := failed
           pass_rate := pass_rate_expr passed total }

end Sv

namespace Bh

/- Embedding of the selenium_behave_framework/ variant:
   keywords/keyword_engine.py, keywords/keyword_executor.py and
   utils/excel_reader.py. -/

/-- The keys of the keyword dictionary built in the KeywordEngine constructor
    (lines 45 to 154). -/
def keyword_names : List String :=
  ["NAVIGATE", "OPEN", "OPEN_URL", "REFRESH", "GO_BACK", "GO_FORWARD",
   "MAXIMIZE", "RESIZE", "ENTER", "TYPE", "INPUT", "CLEAR", "CLEAR_AND_ENTER",
   "CLICK", "DOUBLE_CLICK", "RIGHT_CLICK", "JS_CLICK", "CLICK_IF_EXISTS",
   "SELECT", "SELECT_BY_VALUE", "SELECT_BY_TEXT", "SELECT_BY_INDEX", "CHECK",
   "UNCHECK", "SELECT_RADIO", "VERIFY_TEXT", "VERIFY_TITLE", "VERIFY_URL",
   "VERIFY_ELEMENT_PRESENT", "VERIFY_ELEMENT_VISIBLE",
   "VERIFY_ELEMENT_NOT_VISIBLE", "VERIFY_ELEMENT_ENABLED",
   "VERIFY_ELEMENT_DISABLED", "VERIFY_ATTRIBUTE", "VERIFY_VALUE", "WAIT",
   "WAIT_FOR_ELEMENT", "WAIT_FOR_VISIBLE", "WAIT_FOR_CLICKABLE",
   "WAIT_FOR_TEXT", "WAIT_FOR_PAGE_LOAD", "PRESS_KEY", "PRESS_ENTER",
   "PRESS_TAB", "PRESS_ESCAPE", "HOVER", "DRAG_AND_DROP", "SCROLL_TO",
   "SCROLL_BY", "SCROLL_TO_TOP", "SCROLL_TO_BOTTOM", "SWITCH_TO_FRAME",
   "SWITCH_TO_DEFAULT", "SWITCH_TO_WINDOW", "SWITCH_TO_NEW_WINDOW",
   "CLOSE_WINDOW", "ACCEPT_ALERT", "DISMISS_ALERT", "GET_ALERT_TEXT",
   "ENTER_ALERT_TEXT", "GET_TEXT", "GET_ATTRIBUTE", "GET_VALUE", "STORE_TEXT",
   "STORE_ATTRIBUTE", "STORE_VALUE", "SCREENSHOT", "ELEMENT_SCREENSHOT",
   "EXECUTE_JS", "SET_VALUE_JS", "ASSERT_TRUE", "ASSERT_FALSE",
   "ASSERT_EQUALS", "ASSERT_CONTAINS", "PRINT", "LOG", "PAUSE"]

/-- KeywordEngine.execute (lines 156 to 202), reduced to its dispatch
    decision: an unknown keyword raises ValueError naming the normalized
    keyword; otherwise a locator tuple is built only when both the locator
    type and the locator value are nonempty, and the handler is called with
    the locator, the data, both, or nothing, depending on which are present
    (Python truthiness of the locator tuple and the data string). -/
def execute_dispatch (keyword locator_type locator_value data : String) :
    Except String CallShape :=
  let k := pyStrip (pyUpper keyword)
  if k ∈ keyword_names then
    let locator_provided := locator_type ≠ "" && locator_value ≠ ""
    let data_provided := data ≠ ""
    .ok (if locator_provided && data_provided then .both
         else if locator_provided then .locatorOnly
         else if data_provided then .valueOnly
         else .noArgs)
  else .error ("Unknown keyword: " ++ k)

/-- KeywordEngine.verify_text (lines 363 to 369), as a function of the text of
    the located element: the returned match flag is containment of the
    expected text in the actual text. -/
def verify_text (actual_text expected_text : String) : Bool :=
  strIn expected_text actual_text

/-- One row of the master sheet, stringified. -/
structure MasterRow where
  test_case_id : String
  execute : String
  screen_flow : String
  description : String
deriving Repr, DecidableEq

/-- Lines 203 to 204 of excel_reader.get_test_scenarios: the Execute cell is
    lower-cased (not stripped) and compared against yes, y, true and 1. -/
def execute_selected (execute_value : String) : Bool :=
  pyLower execute_value ∈ (["yes", "y", "true", "1"] : List String)

/-- A scenario kept by get_test_scenarios. -/
structure Scenario where
  test_case_id : String
  screen_flow : String
  description : String
deriving Repr, DecidableEq

def toScenario (r : MasterRow) : Scenario :=
  { test_case_id := r.test_case_id, screen_flow := r.screen_flow
    description := r.description }

/-- excel_reader.get_test_scenarios (lines 189 to 210). -/
def get_test_scenarios (rows : List MasterRow) : List Scenario :=
  (rows.filter (fun r => execute_selected r.execute)).map toScenario

/-- One keyword step as produced by excel_reader.read_keywords. -/
structure Step where
  keyword : String
  locator_type : String
  locator_value : String
  test_data : String
  description : String
deriving Repr, DecidableEq

/-- Outcome of reading one screen sheet: found with its steps, absent
    (ValueError, recoverable), or another fault that propagates. -/
inductive ReadOutcome
  | found (steps : List Step)
  | notFound
  | fault (e : String)
deriving Repr, DecidableEq

/-- One entry of TestResult.steps as built by add_step (the timestamp carries
    no verified content). -/
structure StepRec where
  step_no : Nat
  keyword : String
  status : String
  message : String
deriving Repr, DecidableEq

/-- How the screen loop of KeywordExecutor ends early: a step failure
    (re-raised, later absorbed with status Failed) or an orchestration fault
    (absorbed with status Error). -/
inductive Abort
  | stepFail (msg : String)
  | orchFault (e : String)
deriving Repr, DecidableEq

/-- Whether an early loop exit came from a step failure. -/
def isStepFail : Option Abort → Bool
  | some (.stepFail _) => true
  | _ => false

/-- Environment of one run of KeywordExecutor: driver setup, the screen
    reader, the per-step engine outcome (an Except error is a raised
    exception), the screenshot-on-success configuration flag, the outcome of
    that unprotected screenshot call, and the clock read in the finally
    block. -/
structure Env where
  setup : Except String Unit
  read_screen : String → ReadOutcome
  exec : Nat → Step → Except String Unit
  shot_on_success : Bool
  take_shot : Except String String
  end_clock : Nat

/-- Outcome of the screen and step loops. -/
structure RunOut where
  counter : Nat
  recs : List StepRec
  abort : Option Abort
deriving Repr

/-- The step loop of KeywordExecutor run of one screen (lines 253 to 289):
    steps are numbered from 1 including skipped ones; a step with an empty
    keyword is skipped; a passing step is recorded with status Passed; the
    first raising step is recorded with status Failed, the error message is
    attributed to screen and step, and the exception is re-raised, ending the
    whole flow. -/
def runKeys (exec : Nat → Step → Except String Unit) (screen : String) :
    Nat → Nat → List Step → RunOut
  | g, _, [] => ⟨g, [], none⟩
  | g, idx, st :: rest =>
    let kw := pyUpper st.keyword
    if kw = "" then runKeys exec screen g (idx + 1) rest
    else
      match exec g st with
      | .ok _ =>
        let o := runKeys exec screen (g + 1) (idx + 1) rest
        ⟨o.counter, ⟨idx, kw, "Passed", st.description⟩ :: o.recs, o.abort⟩
      | .error e =>
        ⟨g + 1, [⟨idx, kw, "Failed", e⟩],
          some (.stepFail ("Screen: " ++ screen ++ ", Step: " ++ toString idx ++ " - " ++ e))⟩

/-- The screen loop (lines 244 to 251): a screen the reader cannot find is
    skipped with a warning; another reader fault propagates; a found screen
    runs its steps, and a step failure aborts the remaining screens. -/
def runScreens (env : Env) : Nat → List String → RunOut
  | g, [] => ⟨g, [], none⟩
  | g, s :: rest =>
    match env.read_screen s with
    | .notFound => runScreens env g rest
    | .fault e => ⟨g, [], some (.orchFault e)⟩
    | .found keywords =>
      let o := runKeys env.exec s g 1 keywords
      match o.abort with
      | some a => ⟨o.counter, o.recs, some a⟩
      | none =>
        let o2 := runScreens env o.counter rest
        ⟨o2.counter, o.recs ++ o2.recs, o2.abort⟩

/-- The TestResult fields this embedding tracks (the screenshot path carries
    no verified content), plus the session lifecycle events. -/
structure Result where
  status : String
  steps : List StepRec
  error_message : Option String
  end_time : Option Nat
  session_events : List SessionEvent
deriving Repr

/-- KeywordExecutor private run of one test case (lines 213 to 310).  Setup
    failure is caught by the outer except and yields status Error with no
    session ever created.  A re-raised step failure is caught with the status
    already Failed.  When every executed step passed the status becomes
    Passed, unless the configured success screenshot raises, which the outer
    except turns into Error.  The finally block stamps the end time and tears
    the driver down on every path. -/
def run_test_case (env : Env) (screen_flow : String) : Result :=
  match env.setup with
  | .error e =>
    { status := "Error", steps := [], error_message := some e
      end_time := some env.end_clock, session_events := [] }
  | .ok _ =>
    let screens := ((pySplitComma screen_flow).map pyStrip).filter (fun s => s ≠ "")
    let o := runScreens env 0 screens
    match o.abort with
    | some (.stepFail m) =>
      { status := "Failed", steps := o.recs, error_message := some m
        end_time := some env.end_clock, session_events := [.opened, .closed] }
    | some (.orchFault e) =>
      { status := "Error", steps := o.recs, error_message := some e
        end_time := some env.end_clock, session_events := [.opened, .closed] }
    | none =>
      if env.shot_on_success then
        match env.take_shot with
        | .ok _ =>
          { status := "Passed", steps := o.recs, error_message := none
            end_time := some env.end_clock, session_events := [.opened, .closed] }
        | .error e =>
          { status := "Error", steps := o.recs, error_message := some e
            end_time := some env.end_clock, session_events := [.opened, .closed] }
      else
        { status := "Passed", steps := o.recs, error_message := none
          end_time := some env.end_clock, session_events := [.opened, .closed] }

/-- The execution summary of KeywordExecutor print summary (lines 333 to
    339). -/
structure Summary where
  total : Nat
  passed : Nat
  failed : Nat
  errors : Nat
  pass_rate : ℚ
deriving Repr

/-- Lines 335 to 339: three generator-sum counts over the result statuses and
    a pass rate guarded by the positivity test on the total. -/
def print_summary (results : List Result) : Summary :=
  let total := results.length
  let passed := sumCount (fun r => r.status == "Passed") results
  let failed := sumCount (fun r => r.status == "Failed") results
  let errors := sumCount (fun r => r.status == "Error") results
  { total := total, passed := passed, failed := failed, errors := errors
    pass_rate := if total > 0 then (passed : ℚ) / (total : ℚ) * 100 else 0 }

end Bh

/- Concrete environments and data used by the closed theorems. -/

/-- A page oracle on which every Playwright call raises. -/
def fwEnv0 : Fw.PageEnv :=
  { text_content := fun _ => .error "no page", title := .error "no page"
    url := .error "no page", act := fun _ _ _ => (false, "no page") }

/-- A page oracle whose element text is the welcome banner. -/
def fwEnvWelcome : Fw.PageEnv :=
  { fwEnv0 with text_content := fun _ => .ok "Welcome, Admin!" }

/-- A run environment whose browser starts and whose steps all pass. -/
def fwRunEnv : Fw.Env := { start_browser := true, exec := fun _ _ => (true, "ok") }

/-- A data source with no screen sheets at all. -/
def fwAvailNone : String → Option Fw.ScreenData := fun _ => none

/-- A one-screen data source for the flow resolution witnesses. -/
def fwLoginScreen : Fw.ScreenData :=
  { screen_name := "Login"
    test_cases := [[{ field := "Username", locator := "id=user"
                      keyword := "ENTER", value := "admin" }]] }

def fwAvailLogin : String → Option Fw.ScreenData :=
  fun s => if s = "Login" then some fwLoginScreen else none

/-- A Selenium engine oracle whose element text is lower-case. -/
def svEngineEnvLower : Sv.EngineEnv :=
  { get_element := fun _ => true, element_text := fun _ => .ok "welcome"
    act := fun _ _ _ => (true, "") }

/-- A Selenium run environment whose browser starts and whose steps pass. -/
def svEnvPass : Sv.Env := { start_browser := true, exec := fun _ _ => (true, "ok") }

/-- A Selenium run environment whose browser fails to start. -/
def svEnvNoBrowser : Sv.Env := { start_browser := false, exec := fun _ _ => (true, "ok") }

/-- A screen sheet defining two keyword-row and value-row pairs. -/
def svTwoPairScreen : Sv.ScreenData :=
  { screen_name := "S", field_names := ["F"], locators := ["l1"]
    test_data := [["CLICK"], [""], ["ENTER"], ["hello"]] }

def svReadTwoPair : String → Option Sv.ScreenData :=
  fun s => if s = "S" then some svTwoPairScreen else none

/-- One master row marked for execution. -/
def svRowsOne : List Sv.MasterRow :=
  [{ test_case_id := "TC1", execute := "Yes", screen_flow := "Login"
     description := "login test" }]

/-- One concrete behave keyword step. -/
def bhStepClick : Bh.Step :=
  { keyword := "CLICK", locator_type := "id", locator_value := "btn"
    test_data := "", description := "press the button" }

/-- A behave environment with a working driver and one known screen. -/
def bhEnvOk : Bh.Env :=
  { setup := .ok ()
    read_screen := fun s => if s = "Login" then .found [bhStepClick] else .notFound
    exec := fun _ _ => .ok (), shot_on_success := false
    take_shot := .ok "shot.png", end_clock := 7 }

/-- The same environment with a driver that cannot be created. -/
def bhEnvSetupFail : Bh.Env := { bhEnvOk with setup := .error "driver boot failure" }

/-- The same environment with a step that raises. -/
def bhEnvStepFail : Bh.Env := { bhEnvOk with exec := fun _ _ => .error "element not found" }

/- Supporting lemmas. -/

lemma okThenMaybeFail_cons_true (l : List Bool) :
    okThenMaybeFail (true :: l) = okThenMaybeFail l := by
  cases l <;> simp [okThenMaybeFail]

lemma okThenMaybeFail_of_all {l : List Bool} (h : ∀ b ∈ l, b = true) :
    okThenMaybeFail l = true := by
  induction l with
  | nil => rfl
  | cons b t ih =>
    rw [h b (by simp), okThenMaybeFail_cons_true]
    exact ih (fun x hx => h x (by simp [hx]))

lemma okThenMaybeFail_append {l1 l2 : List Bool} (h1 : ∀ b ∈ l1, b = true)
    (h2 : okThenMaybeFail l2 = true) : okThenMaybeFail (l1 ++ l2) = true := by
  induction l1 with
  | nil => simpa using h2
  | cons b t ih =>
    rw [List.cons_append, h1 b (by simp), okThenMaybeFail_cons_true]
    exact ih (fun x hx => h1 x (by simp [hx]))

lemma listContains_cons (c : Char) {hay needle : List Char}
    (h : listContains hay needle = true) : listContains (c :: hay) needle = true := by
  unfold listContains
  simp only [Bool.or_eq_true]
  exact Or.inr h

lemma listContains_append_left (l : List Char) {hay needle : List Char}
    (h : listContains hay needle = true) : listContains (l ++ hay) needle = true := by
  induction l with
  | nil => simpa using h
  | cons c t ih => exact List.cons_append c t hay ▸ listContains_cons c ih

lemma listContains_self_append (needle rest : List Char) :
    listContains (needle ++ rest) needle = true := by
  unfold listContains
  simp only [Bool.or_eq_true]
  left
  rw [List.isPrefixOf_iff_prefix]
  exact List.prefix_append needle rest

lemma strIn_sandwich (pre s post : String) : strIn s ((pre ++ s) ++ post) = true := by
  unfold strIn
  rw [String.data_append, String.data_append, List.append_assoc]
  exact listContains_append_left pre.data (listContains_self_append s.data post.data)

lemma strIn_suffix (pre s : String) : strIn s (pre ++ s) = true := by
  unfold strIn
  rw [String.data_append]
  exact listContains_append_left pre.data
    (by simpa using listContains_self_append s.data [])

lemma sumCount_eq_countP {α : Type} (p : α → Bool) (l : List α) :
    sumCount p l = l.countP p := by
  have key : ∀ (l : List α) (acc : Nat),
      l.foldl (fun a r => if p r then a + 1 else a) acc = acc + l.countP p := by
    intro l
    induction l with
    | nil => intro acc; simp
    | cons x t ih =>
      intro acc
      by_cases hx : p x = true
      · simp [List.countP_cons, hx, ih]
        omega
      · simp [List.countP_cons, hx, ih]
  simpa using key l 0

lemma all_map_of_all {β : Type} (f : β → Bool) {recs : List β}
    (h : ∀ r ∈ recs, f r = true) : ∀ b ∈ recs.map f, b = true := by
  intro b hb
  rcases List.mem_map.mp hb with ⟨r, hr, rfl⟩
  exact h r hr

lemma fw_runSteps_inv (exec : Nat → Fw.Step → Bool × String) :
    ∀ (steps : List Fw.Step) (n : Nat),
      ((Fw.runSteps exec n steps).failed = false →
        ∀ r ∈ (Fw.runSteps exec n steps).recs, r.success = true)
      ∧ okThenMaybeFail ((Fw.runSteps exec n steps).recs.map (fun r => r.success)) = true := by
  intro steps
  induction steps with
  | nil => intro n; simp [Fw.runSteps, okThenMaybeFail]
  | cons s rest ih =>
    intro n
    rcases hx : exec n s with ⟨ok, msg⟩
    cases ok with
    | false =>
      constructor
      · intro hfail
        simp [Fw.runSteps, hx] at hfail
      · simp [Fw.runSteps, hx, okThenMaybeFail]
    | true =>
      constructor
      · intro hfail r hr
        simp only [Fw.runSteps, hx] at hfail hr
        rcases List.mem_cons.mp hr with h1 | h2
        · rw [h1]
        · exact (ih (n + 1)).1 hfail r h2
      · simp only [Fw.runSteps, hx, List.map_cons]
        rw [okThenMaybeFail_cons_true]
        exact (ih (n + 1)).2

lemma fw_runScreens_inv (exec : Nat → Fw.Step → Bool × String) :
    ∀ (screens : List Fw.ScreenData) (n : Nat),
      ((Fw.runScreens exec n screens).failed = false →
        ∀ r ∈ (Fw.runScreens exec n screens).recs, r.success = true)
      ∧ okThenMaybeFail ((Fw.runScreens exec n screens).recs.map (fun r => r.success)) = true := by
  intro screens
  induction screens with
  | nil => intro n; simp [Fw.runScreens, okThenMaybeFail]
  | cons sd rest ih =>
    intro n
    cases htc : sd.test_cases with
    | nil =>
      simpa [Fw.runScreens, htc] using ih n
    | cons tc tcs =>
      have hsteps := fw_runSteps_inv exec tc n
      by_cases hfail : (Fw.runSteps exec n tc).failed = true
      · constructor
        · intro hcontra
          simp [Fw.runScreens, htc, hfail] at hcontra
        · simpa [Fw.runScreens, htc, hfail] using hsteps.2
      · have hff : (Fw.runSteps exec n tc).failed = false := by
          simpa using hfail
        have hall := hsteps.1 hff
        constructor
        · intro h2 r hr
          simp only [Fw.runScreens, htc, hff, Bool.false_eq_true, if_false] at h2 hr
          rcases List.mem_append.mp hr with h | h
          · exact hall r h
          · exact (ih _).1 h2 r h
        · simp only [Fw.runScreens, htc, hff, Bool.false_eq_true, if_false, List.map_append]
          exact okThenMaybeFail_append (all_map_of_all _ hall) (ih _).2

lemma sv_runSvSteps_inv (exec : Nat → Sv.Step → Bool × String) :
    ∀ (steps : List Sv.Step) (n idx : Nat),
      ((Sv.runSvSteps exec n idx steps).test_passed = true →
        ∀ r ∈ (Sv.runSvSteps exec n idx steps).recs, r.success = true)
      ∧ okThenMaybeFail
          ((Sv.runSvSteps exec n idx steps).recs.map (fun r => r.success)) = true := by
  intro steps
  induction steps with
  | nil => intro n idx; simp [Sv.runSvSteps, okThenMaybeFail]
  | cons st rest ih =>
    intro n idx
    rcases hx : exec n st with ⟨ok, msg⟩
    cases ok with
    | false =>
      constructor
      · intro hpass
        simp [Sv.runSvSteps, hx] at hpass
      · simp [Sv.runSvSteps, hx, okThenMaybeFail]
    | true =>
      constructor
      · intro hpass r hr
        simp only [Sv.runSvSteps, hx] at hpass hr
        rcases List.mem_cons.mp hr with h1 | h2
        · rw [h1]
        · exact (ih (n + 1) (idx + 1)).1 hpass r h2
      · simp only [Sv.runSvSteps, hx, List.map_cons]
        rw [okThenMaybeFail_cons_true]
        exact (ih (n + 1) (idx + 1)).2

lemma sv_runSvScreens_inv (exec : Nat → Sv.Step → Bool × String) :
    ∀ (screens : List Sv.ScreenData) (n : Nat),
      ((Sv.runSvScreens exec n screens).test_passed = true →
        ∀ r ∈ (Sv.runSvScreens exec n screens).recs, r.success = true)
      ∧ okThenMaybeFail
          ((Sv.runSvScreens exec n screens).recs.map (fun r => r.success)) = true := by
  intro screens
  induction screens with
  | nil => intro n; simp [Sv.runSvScreens, okThenMaybeFail]
  | cons sd rest ih =>
    intro n
    by_cases hem : (Sv.parse_test_steps sd).isEmpty
    · simpa [Sv.runSvScreens, hem] using ih n
    · have hsteps := sv_runSvSteps_inv exec (Sv.parse_test_steps sd) n 1
      by_cases hpass : (Sv.runSvSteps exec n 1 (Sv.parse_test_steps sd)).test_passed = true
      · have hall := hsteps.1 hpass
        constructor
        · intro h2 r hr
          simp only [Sv.runSvScreens, hem, Bool.false_eq_true, if_false, hpass,
            if_true] at h2 hr
          rcases List.mem_append.mp hr with h | h
          · exact hall r h
          · exact (ih _).1 h2 r h
        · simp only [Sv.runSvScreens, hem, Bool.false_eq_true, if_false, hpass, if_true,
            List.map_append]
          exact okThenMaybeFail_append (all_map_of_all _ hall) (ih _).2
      · constructor
        · intro hcontra
          simp [Sv.runSvScreens, hem, hpass] at hcontra
        · simpa [Sv.runSvScreens, hem, hpass] using hsteps.2

lemma sv_runSvSteps_all (exec : Nat → Sv.Step → Bool × String)
    (hall : ∀ m st, (exec m st).1 = true) :
    ∀ (steps : List Sv.Step) (n idx : Nat),
      (Sv.runSvSteps exec n idx steps).test_passed = true
      ∧ ((Sv.runSvSteps exec n idx steps).recs.map (fun r => r.step)) = steps := by
  intro steps
  induction steps with
  | nil => intro n idx; simp [Sv.runSvSteps]
  | cons st rest ih =>
    intro n idx
    rcases hx : exec n st with ⟨ok, msg⟩
    have hok : ok = true := by
      have h := hall n st
      rw [hx] at h
      exact h
    subst hok
    constructor
    · simp only [Sv.runSvSteps, hx]
      exact (ih (n + 1) (idx + 1)).1
    · simp only [Sv.runSvSteps, hx, List.map_cons]
      rw [(ih (n + 1) (idx + 1)).2]

lemma bh_runKeys_inv (exec : Nat → Bh.Step → Except String Unit) (screen : String) :
    ∀ (keywords : List Bh.Step) (g idx : Nat),
      ((Bh.runKeys exec screen g idx keywords).abort = none →
        ∀ r ∈ (Bh.runKeys exec screen g idx keywords).recs, r.status = "Passed")
      ∧ ((Bh.runKeys exec screen g idx keywords).abort = none
          ∨ ∃ m, (Bh.runKeys exec screen g idx keywords).abort = some (.stepFail m))
      ∧ okThenMaybeFail
          ((Bh.runKeys exec screen g idx keywords).recs.map
            (fun r => r.status == "Passed")) = true := by
  intro keywords
  induction keywords with
  | nil => intro g idx; simp [Bh.runKeys, okThenMaybeFail]
  | cons st rest ih =>
    intro g idx
    by_cases hkw : pyUpper st.keyword = ""
    · simpa [Bh.runKeys, hkw] using ih g (idx + 1)
    · cases hx : exec g st with
      | ok u =>
        refine ⟨?_, ?_, ?_⟩
        · intro habort r hr
          simp only [Bh.runKeys, hkw, if_false, hx] at habort hr
          rcases List.mem_cons.mp hr with h1 | h2
          · rw [h1]
          · exact (ih (g + 1) (idx + 1)).1 habort r h2
        · simpa only [Bh.runKeys, hkw, if_false, hx] using (ih (g + 1) (idx + 1)).2.1
        · simp only [Bh.runKeys, hkw, if_false, hx, List.map_cons, beq_self_eq_true]
          rw [okThenMaybeFail_cons_true]
          exact (ih (g + 1) (idx + 1)).2.2
      | error e =>
        refine ⟨?_, ?_, ?_⟩
        · intro habort
          simp [Bh.runKeys, hkw, hx] at habort
        · simp only [Bh.runKeys, hkw, if_false, hx]
          exact Or.inr ⟨_, rfl⟩
        · simp [Bh.runKeys, hkw, hx, okThenMaybeFail]

lemma bh_runScreens_inv (env : Bh.Env) :
    ∀ (screens : List String) (g : Nat),
      (Bh.isStepFail (Bh.runScreens env g screens).abort = false →
        ∀ r ∈ (Bh.runScreens env g screens).recs, r.status = "Passed")
      ∧ okThenMaybeFail
          ((Bh.runScreens env g screens).recs.map
            (fun r => r.status == "Passed")) = true := by
  intro screens
  induction screens with
  | nil => intro g; simp [Bh.runScreens, okThenMaybeFail]
  | cons s rest ih =>
    intro g
    cases hrs : env.read_screen s with
    | notFound => simpa [Bh.runScreens, hrs] using ih g
    | fault e => simp [Bh.runScreens, hrs, okThenMaybeFail, Bh.isStepFail]
    | found kws =>
      have hkeys := bh_runKeys_inv env.exec s kws g 1
      cases habort : (Bh.runKeys env.exec s g 1 kws).abort with
      | some a =>
        have hsf : ∃ m, a = Bh.Abort.stepFail m := by
          rcases hkeys.2.1 with h | ⟨m, hm⟩
          · rw [habort] at h
            exact absurd h (by simp)
          · rw [habort] at hm
            exact ⟨m, by injection hm⟩
        rcases hsf with ⟨m, rfl⟩
        constructor
        · intro hcontra
          simp [Bh.runScreens, hrs, habort, Bh.isStepFail] at hcontra
        · simpa only [Bh.runScreens, hrs, habort] using hkeys.2.2
      | none =>
        have hall := hkeys.1 habort
        constructor
        · intro h2 r hr
          simp only [Bh.runScreens, hrs, habort] at h2 hr
          rcases List.mem_append.mp hr with h | h
          · exact hall r h
          · exact (ih _).1 h2 r h
        · simp only [Bh.runScreens, hrs, habort, List.map_append]
          exact okThenMaybeFail_append
            (all_map_of_all _ (fun r hr => by simp [hall r hr])) (ih _).2

lemma strIn_five (a b s c d : String) : strIn s (a ++ b ++ s ++ c ++ d) = true := by
  unfold strIn
  simp only [String.data_append, List.append_assoc]
  exact listContains_append_left _
    (listContains_append_left _ (listContains_self_append _ _))

/-- C1 (amended): for every keyword whose canonical form (upper-cased, then
    stripped) is absent from the registry of the respective variant, the two
    tuple-returning engines produce success false with a message containing
    that canonical form and return without raising, and the behave engine
    raises ValueError with a message containing that canonical form (which its
    executor records as a Failed step outcome). -/
theorem c1_unknown_keyword_amended :
    (∀ (env : Fw.PageEnv) (k locator value : String),
      pyStrip (pyUpper k) ∉ Fw.keyword_names →
      (Fw.execute_keyword env k locator value).1 = false
      ∧ strIn (pyStrip (pyUpper k)) (Fw.execute_keyword env k locator value).2 = true)
    ∧ (∀ (env : Sv.EngineEnv) (k locator value : String),
      pyUpper (pyStrip k) ∉ Sv.keyword_names →
      (Sv.execute_keyword env k locator value).1 = false
      ∧ strIn (pyUpper (pyStrip k)) (Sv.execute_keyword env k locator value).2 = true)
    ∧ (∀ (k lt lv d : String),
      pyStrip (pyUpper k) ∉ Bh.keyword_names →
      Bh.execute_dispatch k lt lv d =
        .error ("Unknown keyword: " ++ pyStrip (pyUpper k))
      ∧ strIn (pyStrip (pyUpper k))
          ("Unknown keyword: " ++ pyStrip (pyUpper k)) = true) := by
  refine ⟨?_, ?_, ?_⟩
  · intro env k locator value h
    simp only [Fw.execute_keyword, Fw.handler_args, h, if_false]
    exact ⟨by trivial, strIn_five "Keyword " squote (pyStrip (pyUpper k)) squote " is not supported"⟩
  · intro env k locator value h
    simp only [Sv.execute_keyword, Sv.handler_args, h, if_false]
    exact ⟨by trivial, strIn_suffix "Unknown keyword: " (pyUpper (pyStrip k))⟩
  · intro k lt lv d h
    simp only [Bh.execute_dispatch, h, if_false]
    exact ⟨by trivial, strIn_suffix "Unknown keyword: " (pyStrip (pyUpper k))⟩

/-- C1 counterexample: the claim as stated fails for the lower-case keyword
    bogus, because the engine normalizes before formatting, so the failure
    message contains BOGUS but not the submitted name bogus. -/
theorem c1_unknown_keyword_counterexample :
    (Fw.execute_keyword fwEnv0 "bogus" "" "").1 = false
    ∧ strIn "bogus" (Fw.execute_keyword fwEnv0 "bogus" "" "").2 = false := by
  decide

/-- C1 witness: the amended theorem evaluated at the keyword bogus. -/
theorem c1_unknown_keyword_witness :
    ((Fw.execute_keyword fwEnv0 "bogus" "" "").1 = false
      ∧ strIn (pyStrip (pyUpper "bogus")) (Fw.execute_keyword fwEnv0 "bogus" "" "").2 = true)
    ∧ ((Sv.execute_keyword svEngineEnvLower "bogus" "" "").1 = false)
    ∧ Bh.execute_dispatch "bogus" "id" "x" "y" =
        .error ("Unknown keyword: " ++ pyStrip (pyUpper "bogus")) := by
  refine ⟨c1_unknown_keyword_amended.1 fwEnv0 "bogus" "" "" (by decide),
    (c1_unknown_keyword_amended.2.1 svEngineEnvLower "bogus" "" "" (by decide)).1,
    (c1_unknown_keyword_amended.2.2 "bogus" "id" "x" "y" (by decide)).1⟩

/-- C5 (amended): the framework variant and the behave variant decide the
    verification keywords by exact substring containment of the expected value
    in the actual value; the selenium variant decides VERIFY_TEXT by substring
    containment after lower-casing both sides, which accepts pairs that are
    not substrings literally. -/
theorem c5_substring_verification_amended :
    (∀ (env : Fw.PageEnv) (locator expected actual : String),
      env.text_content locator = .ok actual →
      (Fw.verify_text env locator expected).1 = strIn expected actual)
    ∧ (∀ (env : Fw.PageEnv) (expected actual : String),
      env.title = .ok actual →
      (Fw.verify_title env expected).1 = strIn expected actual)
    ∧ (∀ (env : Fw.PageEnv) (expected actual : String),
      env.url = .ok actual →
      (Fw.verify_url env expected).1 = strIn expected actual)
    ∧ (∀ (ge : String → Bool) (tx : String → Except String String)
        (locator value actual : String),
      locator ≠ "" → ge locator = true → tx locator = .ok actual →
      (Sv.verify_text ge tx locator value).1 = strIn (pyLower value) (pyLower actual))
    ∧ (∀ (actual expected : String),
      Bh.verify_text actual expected = strIn expected actual) := by
  refine ⟨?_, ?_, ?_, ?_, ?_⟩
  · intro env locator expected actual h
    simp only [Fw.verify_text, h]
    by_cases hs : strIn expected actual = true <;> simp [hs]
  · intro env expected actual h
    simp only [Fw.verify_title, h]
    by_cases hs : strIn expected actual = true <;> simp [hs]
  · intro env expected actual h
    simp only [Fw.verify_url, h]
    by_cases hs : strIn expected actual = true <;> simp [hs]
  · intro ge tx locator value actual hloc hge htx
    simp only [Sv.verify_text, hloc, if_false, hge, htx]
    by_cases hs : strIn (pyLower value) (pyLower actual) = true <;> simp [hs]
  · intro actual expected
    rfl

/-- C5 counterexample: the selenium variant accepts expected WELCOME against
    actual welcome although WELCOME is not a substring of welcome, so the
    claimed equivalence with substring containment fails there. -/
theorem c5_substring_verification_counterexample :
    (Sv.verify_text (fun _ => true) (fun _ => .ok "welcome") "banner" "WELCOME").1 = true
    ∧ strIn "WELCOME" "welcome" = false := by
  decide

/-- C5 witness: the framework variant on the Welcome banner scenario. -/
theorem c5_substring_verification_witness :
    (Fw.verify_text fwEnvWelcome "banner" "Welcome").1 = true := by
  have h := c5_substring_verification_amended.1 fwEnvWelcome "banner" "Welcome"
    "Welcome, Admin!" rfl
  rw [h]
  decide

/-- C7 (amended): a master row is selected exactly when its Execute flag
    passes the variant test: the framework variant accepts only yes and y,
    case-insensitively after stripping; the selenium variant accepts yes, y,
    true and 1 after stripping and lower-casing; the behave variant accepts
    yes, y, true and 1 after lower-casing only, without stripping. -/
theorem c7_execute_flag_amended :
    (∀ (rows : List Fw.MasterRow) (r : Fw.MasterRow),
      r ∈ Fw.read_master_sheet rows ↔ r ∈ rows ∧ Fw.execute_selected r.execute = true)
    ∧ (∀ (rows : List Sv.MasterRow) (r : Sv.MasterRow),
      r ∈ Sv.read_master_sheet rows ↔ r ∈ rows ∧ Sv.execute_selected r.execute = true)
    ∧ (∀ (rows : List Bh.MasterRow) (s : Bh.Scenario),
      s ∈ Bh.get_test_scenarios rows ↔
        ∃ r ∈ rows, Bh.execute_selected r.execute = true ∧ Bh.toScenario r = s)
    ∧ (∀ e, Fw.execute_selected e = true ↔
        (pyUpper (pyStrip e) = "YES" ∨ pyUpper (pyStrip e) = "Y"))
    ∧ (∀ e, Sv.execute_selected e = true ↔
        (pyLower (pyStrip e) = "yes" ∨ pyLower (pyStrip e) = "y"
          ∨ pyLower (pyStrip e) = "true" ∨ pyLower (pyStrip e) = "1"))
    ∧ (∀ e, Bh.execute_selected e = true ↔
        (pyLower e = "yes" ∨ pyLower e = "y" ∨ pyLower e = "true" ∨ pyLower e = "1")) := by
  refine ⟨?_, ?_, ?_, ?_, ?_, ?_⟩
  · intro rows r
    simp [Fw.read_master_sheet, List.mem_filter]
  · intro rows r
    simp [Sv.read_master_sheet, List.mem_filter]
  · intro rows s
    simp only [Bh.get_test_scenarios, List.mem_map, List.mem_filter]
    constructor
    · rintro ⟨r, ⟨hr, hsel⟩, rfl⟩
      exact ⟨r, hr, hsel, rfl⟩
    · rintro ⟨r, hr, hsel, rfl⟩
      exact ⟨r, ⟨hr, hsel⟩, rfl⟩
  · intro e
    simp [Fw.execute_selected]
  · intro e
    simp [Sv.execute_selected]
  · intro e
    simp [Bh.execute_selected]

/-- C7 counterexample: true is one of the claimed truthy tokens, yet the
    framework variant does not select a row whose Execute flag is true; and a
    padded flag that trims to yes is not selected by the behave variant, which
    does not trim. -/
theorem c7_execute_flag_counterexample :
    Fw.execute_selected "true" = false
    ∧ Fw.execute_selected "TRUE" = false
    ∧ Bh.execute_selected " yes " = false
    ∧ Sv.execute_selected " True " = true := by
  decide

/-- C8 (amended): only the behave engine selects the handler arguments from
    the non-empty fields of the step, and there a step with an empty locator
    and a non-empty value is dispatched as a value-only call; the framework
    and selenium engines always pass both the locator and the value
    positionally to the resolved handler. -/
theorem c8_argument_selection_amended :
    (∀ (k lt d : String),
      pyStrip (pyUpper k) ∈ Bh.keyword_names → d ≠ "" →
      Bh.execute_dispatch k lt "" d = .ok .valueOnly)
    ∧ (∀ (k locator value : String),
      pyStrip (pyUpper k) ∈ Fw.keyword_names →
      Fw.handler_args k locator value = some (locator, value))
    ∧ (∀ (k locator value : String),
      pyUpper (pyStrip k) ∈ Sv.keyword_names →
      Sv.handler_args k locator value = some (locator, value)) := by
  refine ⟨?_, ?_, ?_⟩
  · intro k lt d hk hd
    simp [Bh.execute_dispatch, hk, hd]
  · intro k locator value hk
    simp [Fw.handler_args, hk]
  · intro k locator value hk
    simp [Sv.handler_args, hk]

/-- C8 counterexample: in the framework variant a NAVIGATE step with an empty
    locator and a non-empty value still hands the handler both arguments, the
    empty locator included, rather than a value-only call. -/
theorem c8_argument_selection_counterexample :
    Fw.handler_args "NAVIGATE" "" "https://example.com" =
      some ("", "https://example.com") := by
  decide

/-- C8 witness: the amended theorem evaluated on concrete steps. -/
theorem c8_argument_selection_witness :
    Bh.execute_dispatch "ENTER" "id" "" "hello" = .ok .valueOnly
    ∧ Fw.handler_args "CLICK" "id=btn" "" = some ("id=btn", "") := by
  exact ⟨c8_argument_selection_amended.1 "ENTER" "id" "hello" (by decide) (by decide),
    c8_argument_selection_amended.2.1 "CLICK" "id=btn" "" (by decide)⟩

lemma sessionReleased_nil : sessionReleased [] = true := by decide

lemma sessionReleased_pair :
    sessionReleased [SessionEvent.opened, SessionEvent.closed] = true := by decide

/-- C2: in all three variants, every step invoked before the last invoked step
    of a test case succeeded; hence after the first failing step no further
    step of the same screen or of any later screen is invoked, and execution
    proceeds to finalization. -/
theorem c2_stop_on_first_failure :
    (∀ (env : Fw.Env) (read : String → Option Fw.ScreenData) (flow : String),
      okThenMaybeFail ((Fw.execute_test_case env read flow).trace.map
        (fun r => r.success)) = true)
    ∧ (∀ (env : Sv.Env) (read : String → Option Sv.ScreenData) (tc d flow : String),
      okThenMaybeFail ((Sv.execute_test_case env read tc d flow).trace.map
        (fun r => r.success)) = true)
    ∧ (∀ (env : Bh.Env) (flow : String),
      okThenMaybeFail ((Bh.run_test_case env flow).steps.map
        (fun r => r.status == "Passed")) = true) := by
  refine ⟨?_, ?_, ?_⟩
  · intro env read flow
    by_cases hb : env.start_browser = false
    · simp [Fw.execute_test_case, hb, okThenMaybeFail]
    · by_cases he : (Fw.get_test_data_for_flow read flow).isEmpty
      · simp [Fw.execute_test_case, hb, he, okThenMaybeFail]
      · simpa [Fw.execute_test_case, hb, he] using
          (fw_runScreens_inv env.exec (Fw.get_test_data_for_flow read flow) 0).2
  · intro env read tc d flow
    by_cases hb : env.start_browser = false
    · simp [Sv.execute_test_case, hb, okThenMaybeFail]
    · by_cases he : (Sv.get_test_data_for_flow read flow).isEmpty
      · simp [Sv.execute_test_case, hb, he, okThenMaybeFail]
      · simpa [Sv.execute_test_case, hb, he] using
          (sv_runSvScreens_inv env.exec (Sv.get_test_data_for_flow read flow) 0).2
  · intro env flow
    cases hs : env.setup with
    | error e => simp [Bh.run_test_case, hs, okThenMaybeFail]
    | ok u =>
      simp only [Bh.run_test_case, hs]
      split
      · exact (bh_runScreens_inv env _ 0).2
      · exact (bh_runScreens_inv env _ 0).2
      · split
        · split
          · exact (bh_runScreens_inv env _ 0).2
          · exact (bh_runScreens_inv env _ 0).2
        · exact (bh_runScreens_inv env _ 0).2

/-- C3 (amended): on every terminal path of every variant the automation
    session is released; the end time is stamped at finalization in the behave
    variant.  The selenium variant stamps no end time: its report entry is
    recorded with the literal duration 0, and the framework variant records a
    timestamped entry only on the paths that reach the report. -/
theorem c3_finalization_amended :
    (∀ (env : Fw.Env) (read : String → Option Fw.ScreenData) (flow : String),
      sessionReleased (Fw.execute_test_case env read flow).session_events = true)
    ∧ (∀ (env : Sv.Env) (read : String → Option Sv.ScreenData) (tc d flow : String),
      sessionReleased (Sv.execute_test_case env read tc d flow).session_events = true)
    ∧ (∀ (env : Bh.Env) (flow : String),
      sessionReleased (Bh.run_test_case env flow).session_events = true
      ∧ (Bh.run_test_case env flow).end_time.isSome = true) := by
  refine ⟨?_, ?_, ?_⟩
  · intro env read flow
    by_cases hb : env.start_browser = false
    · simp [Fw.execute_test_case, hb, sessionReleased_nil]
    · by_cases he : (Fw.get_test_data_for_flow read flow).isEmpty
      · simp [Fw.execute_test_case, hb, he, sessionReleased_pair]
      · simp [Fw.execute_test_case, hb, he, sessionReleased_pair]
  · intro env read tc d flow
    by_cases hb : env.start_browser = false
    · simp [Sv.execute_test_case, hb, sessionReleased_nil]
    · by_cases he : (Sv.get_test_data_for_flow read flow).isEmpty
      · simp [Sv.execute_test_case, hb, he, sessionReleased_pair]
      · simp [Sv.execute_test_case, hb, he, sessionReleased_pair]
  · intro env flow
    cases hs : env.setup with
    | error e => exact ⟨by simp [Bh.run_test_case, hs, sessionReleased_nil], by simp [Bh.run_test_case, hs]⟩
    | ok u =>
      simp only [Bh.run_test_case, hs]
      split
      · exact ⟨sessionReleased_pair, rfl⟩
      · exact ⟨sessionReleased_pair, rfl⟩
      · split
        · split
          · exact ⟨sessionReleased_pair, rfl⟩
          · exact ⟨sessionReleased_pair, rfl⟩
        · exact ⟨sessionReleased_pair, rfl⟩

/-- C3 counterexample: the selenium variant finalizes a run that executed
    steps with the hard-coded duration 0 in its report entry and stamps no end
    time anywhere, so the claim that the end time is stamped on every terminal
    path before the result is returned fails for that variant. -/
theorem c3_finalization_counterexample :
    (Sv.execute_test_case svEnvPass svReadTwoPair "TC1" "desc" "S").report.duration = 0
    ∧ (Sv.execute_test_case svEnvPass svReadTwoPair "TC1" "desc" "S").trace ≠ [] := by
  decide

/-- C4 (amended): a screen absent from the data source is skipped and leaves
    the rest of the flow unchanged, contributing no step outcomes, in both the
    framework flow resolution and the behave screen loop; however, when every
    screen of the flow is absent, the framework variant (and likewise the
    selenium variant) marks the test case failed with a no-data message
    instead of passing it. -/
theorem c4_screen_skip_amended :
    (∀ (read : String → Option Fw.ScreenData) (s : String) (xs ys : List String),
      read s = none →
      Fw.resolveScreens read (xs ++ s :: ys) = Fw.resolveScreens read (xs ++ ys))
    ∧ (∀ (env : Bh.Env) (g : Nat) (s : String) (xs ys : List String),
      env.read_screen s = .notFound →
      Bh.runScreens env g (xs ++ s :: ys) = Bh.runScreens env g (xs ++ ys)) := by
  constructor
  · intro read s xs ys h
    simp [Fw.resolveScreens, List.filterMap_append, List.filterMap_cons, h]
  · intro env g s xs ys h
    induction xs generalizing g with
    | nil => simp [Bh.runScreens, h]
    | cons x t ih =>
      cases hrx : env.read_screen x with
      | notFound =>
        simp only [List.cons_append, Bh.runScreens, hrx]
        exact ih g
      | fault e =>
        simp [List.cons_append, Bh.runScreens, hrx]
      | found kws =>
        simp only [List.cons_append, Bh.runScreens, hrx]
        cases habort : (Bh.runKeys env.exec x g 1 kws).abort with
        | some a => simp [habort]
        | none =>
          simp only [habort, List.append_eq]
          rw [ih]

/-- C4 counterexample: a flow consisting solely of a screen absent from the
    data source resolves to no data, and the framework variant then fails the
    test case with a no-data message and records no result, so the absent
    screen did by itself make the test case fail. -/
theorem c4_screen_skip_counterexample :
    (Fw.execute_test_case fwRunEnv fwAvailNone "GhostScreen").returned_success = false
    ∧ (Fw.execute_test_case fwRunEnv fwAvailNone "GhostScreen").returned_message =
        "No data for screen flow: GhostScreen"
    ∧ (Fw.execute_test_case fwRunEnv fwAvailNone "GhostScreen").report = none := by
  decide

/-- C4 witness: the amended theorem on a flow with one known and one absent
    screen. -/
theorem c4_screen_skip_witness :
    Fw.resolveScreens fwAvailLogin (["Login"] ++ "Ghost" :: []) =
      Fw.resolveScreens fwAvailLogin (["Login"] ++ [])
    ∧ Bh.runScreens bhEnvOk 0 (["Login"] ++ "Ghost" :: []) =
      Bh.runScreens bhEnvOk 0 (["Login"] ++ []) := by
  exact ⟨c4_screen_skip_amended.1 fwAvailLogin "Ghost" ["Login"] [] (by decide),
    c4_screen_skip_amended.2 bhEnvOk 0 "Ghost" ["Login"] [] (by decide)⟩

/-- C6 (amended): only the behave variant separates the two statuses: a setup
    fault yields status Error and a recorded step failure yields status
    Failed.  The framework and selenium variants report only PASS or FAIL, so
    failures outside step execution are not distinguished there: the selenium
    variant maps them to FAIL and the framework variant returns early without
    recording a result. -/
theorem c6_error_vs_failed_amended :
    (∀ (env : Bh.Env) (flow msg : String),
      env.setup = .error msg → (Bh.run_test_case env flow).status = "Error")
    ∧ (∀ (env : Bh.Env) (flow : String) (r : Bh.StepRec),
      r ∈ (Bh.run_test_case env flow).steps → r.status = "Failed" →
      (Bh.run_test_case env flow).status = "Failed")
    ∧ (∀ (env : Fw.Env) (read : String → Option Fw.ScreenData) (flow : String)
        (entry : Fw.ReportEntry),
      (Fw.execute_test_case env read flow).report = some entry →
      entry.status = "PASS" ∨ entry.status = "FAIL")
    ∧ (∀ (env : Sv.Env) (read : String → Option Sv.ScreenData) (tc d flow : String),
      (Sv.execute_test_case env read tc d flow).report.status = "PASS"
      ∨ (Sv.execute_test_case env read tc d flow).report.status = "FAIL") := by
  refine ⟨?_, ?_, ?_, ?_⟩
  · intro env flow msg h
    simp [Bh.run_test_case, h]
  · intro env flow r hr hst
    cases hs : env.setup with
    | error e => simp [Bh.run_test_case, hs] at hr
    | ok u =>
      have hinv := bh_runScreens_inv env
        (((pySplitComma flow).map pyStrip).filter (fun s => s ≠ "")) 0
      simp only [Bh.run_test_case, hs] at hr ⊢
      cases habort : (Bh.runScreens env 0
          (((pySplitComma flow).map pyStrip).filter (fun s => s ≠ ""))).abort with
      | some a =>
        cases a with
        | stepFail m => simp [habort]
        | orchFault e2 =>
          simp only [habort] at hr
          have hall := hinv.1 (by rw [habort]; rfl)
          rw [hall r hr] at hst
          exact absurd hst (by decide)
      | none =>
        have hall := hinv.1 (by rw [habort]; rfl)
        by_cases hshot : env.shot_on_success = true
        · cases hts : env.take_shot with
          | ok p =>
            simp only [habort, hshot, hts, if_true] at hr
            rw [hall r hr] at hst
            exact absurd hst (by decide)
          | error e2 =>
            simp only [habort, hshot, hts, if_true] at hr
            rw [hall r hr] at hst
            exact absurd hst (by decide)
        · simp only [habort, hshot, Bool.false_eq_true, if_false] at hr
          rw [hall r hr] at hst
          exact absurd hst (by decide)
  · intro env read flow entry hentry
    by_cases hb : env.start_browser = false
    · simp [Fw.execute_test_case, hb] at hentry
    · by_cases he : (Fw.get_test_data_for_flow read flow).isEmpty
      · simp [Fw.execute_test_case, hb, he] at hentry
      · by_cases hf :
          (Fw.runScreens env.exec 0 (Fw.get_test_data_for_flow read flow)).failed = true
        · right
          have hrep : (Fw.execute_test_case env read flow).report =
              some { status := "FAIL"
                     error_message := (Fw.runScreens env.exec 0
                       (Fw.get_test_data_for_flow read flow)).error_message } := by
            simp [Fw.execute_test_case, hb, he, hf]
          rw [hrep, Option.some.injEq] at hentry
          rw [← hentry]
        · left
          have hrep : (Fw.execute_test_case env read flow).report =
              some { status := "PASS"
                     error_message := (Fw.runScreens env.exec 0
                       (Fw.get_test_data_for_flow read flow)).error_message } := by
            simp [Fw.execute_test_case, hb, he, hf]
          rw [hrep, Option.some.injEq] at hentry
          rw [← hentry]
  · intro env read tc d flow
    by_cases hb : env.start_browser = false
    · right
      simp [Sv.execute_test_case, hb]
    · by_cases he : (Sv.get_test_data_for_flow read flow).isEmpty
      · right
        simp [Sv.execute_test_case, hb, he]
      · by_cases hp : (Sv.runSvScreens env.exec 0 (Sv.get_test_data_for_flow read flow)).test_passed = true
        · left
          simp [Sv.execute_test_case, hb, he, hp]
        · right
          simp [Sv.execute_test_case, hb, he, hp]

/-- C6 counterexample: a session acquisition failure in the selenium variant
    is finalized with status FAIL, the same status a step failure gets, not
    with a distinct Error status as the claim requires. -/
theorem c6_error_vs_failed_counterexample :
    (Sv.execute_test_case svEnvNoBrowser svReadTwoPair "TC1" "d" "S").report.status = "FAIL"
    ∧ (Sv.execute_test_case svEnvNoBrowser svReadTwoPair "TC1" "d" "S").failure_reason =
        "Failed to start browser" := by
  decide

/-- C6 witness: the behave variant distinguishes the two statuses on concrete
    environments. -/
theorem c6_error_vs_failed_witness :
    (Bh.run_test_case bhEnvSetupFail "Login").status = "Error"
    ∧ (Bh.run_test_case bhEnvStepFail "Login").status = "Failed" := by
  constructor
  · exact c6_error_vs_failed_amended.1 bhEnvSetupFail "Login" "driver boot failure" rfl
  · exact c6_error_vs_failed_amended.2.1 bhEnvStepFail "Login"
      { step_no := 1, keyword := "CLICK", status := "Failed", message := "element not found" }
      (by decide) (by decide)

/-- C9 (amended): the framework variant executes only the first keyword-row
    and value-row pair of each screen, so a run is unchanged when every screen
    is restricted to its first pair; the selenium variant instead parses every
    pair into one flat step list and, when no step fails, invokes every parsed
    step of every pair in order. -/
theorem c9_first_pair_amended :
    (∀ (exec : Nat → Fw.Step → Bool × String) (n : Nat) (screens : List Fw.ScreenData),
      Fw.runScreens exec n screens = Fw.runScreens exec n (screens.map Fw.first_pair_only))
    ∧ (∀ (exec : Nat → Sv.Step → Bool × String),
      (∀ m st, (exec m st).1 = true) →
      ∀ (sd : Sv.ScreenData) (n : Nat),
        ((Sv.runSvScreens exec n [sd]).recs.map (fun r => r.step)) =
          Sv.parse_test_steps sd) := by
  constructor
  · intro exec n screens
    induction screens generalizing n with
    | nil => rfl
    | cons sd rest ih =>
      cases htc : sd.test_cases with
      | nil =>
        simp only [List.map_cons, Fw.runScreens, Fw.first_pair_only, htc, List.take_nil]
        exact ih n
      | cons tc tcs =>
        simp only [List.map_cons, Fw.runScreens, Fw.first_pair_only, htc,
          List.take_succ_cons, List.take_zero]
        by_cases hf : (Fw.runSteps exec n tc).failed = true
        · simp [hf]
        · simp only [hf, Bool.false_eq_true, if_false]
          rw [ih]
  · intro exec hall sd n
    by_cases hem : (Sv.parse_test_steps sd).isEmpty
    · simp only [Sv.runSvScreens, hem, if_true]
      simp only [Sv.runSvScreens, List.map_nil]
      exact (List.isEmpty_iff.mp hem).symm
    · have h := sv_runSvSteps_all exec hall (Sv.parse_test_steps sd) n 1
      simp only [Sv.runSvScreens, hem, Bool.false_eq_true, if_false, h.1, if_true]
      simpa using h.2

/-- C9 counterexample: in the selenium variant a screen defining two pairs has
    the step of its second pair invoked as well: the trace of a passing run
    over that screen lists both the CLICK step of pair one and the ENTER step
    of pair two. -/
theorem c9_first_pair_counterexample :
    ((Sv.execute_test_case svEnvPass svReadTwoPair "TC" "d" "S").trace.map
      (fun r => r.step.keyword)) = ["CLICK", "ENTER"] := by
  decide

/-- C9 witness: the amended theorem on concrete screens and an all-passing
    executor. -/
theorem c9_first_pair_witness :
    ((Sv.runSvScreens (fun _ _ => (true, "ok")) 0 [svTwoPairScreen]).recs.map
      (fun r => r.step)) = Sv.parse_test_steps svTwoPairScreen
    ∧ Fw.runScreens (fun _ _ => (true, "ok")) 0 [fwLoginScreen] =
      Fw.runScreens (fun _ _ => (true, "ok")) 0 ([fwLoginScreen].map Fw.first_pair_only) := by
  exact ⟨c9_first_pair_amended.2 (fun _ _ => (true, "ok")) (fun m st => rfl) svTwoPairScreen 0,
    c9_first_pair_amended.1 (fun _ _ => (true, "ok")) 0 [fwLoginScreen]⟩

/-- C10 (amended): the framework and behave run summaries are pure counts
    over the accumulated results, recomputed on demand, and their pass rate is
    guarded: with zero results it is 0 rather than an error.  The selenium
    variant instead divides its counters without a guard, which would error at
    zero tests; that division is only reached when at least one test case was
    selected, in which case it is defined, and with zero selected test cases
    the run aborts during setup and reports no summary at all. -/
theorem c10_summary_amended :
    (∀ (rs : List Fw.ReportEntry),
      (Fw.generate_report_summary rs).total = rs.length
      ∧ (Fw.generate_report_summary rs).passed = rs.countP (fun r => r.status == "PASS")
      ∧ (Fw.generate_report_summary rs).failed = rs.countP (fun r => r.status == "FAIL"))
    ∧ (Fw.generate_report_summary []).pass_percentage = 0
    ∧ (∀ (rs : List Bh.Result),
      (Bh.print_summary rs).passed = rs.countP (fun r => r.status == "Passed")
      ∧ (Bh.print_summary rs).failed = rs.countP (fun r => r.status == "Failed")
      ∧ (Bh.print_summary rs).errors = rs.countP (fun r => r.status == "Error"))
    ∧ (Bh.print_summary []).pass_rate = 0
    ∧ (∀ (rows : List Sv.MasterRow) (outcome : Nat → Bool) (s : Sv.Summary),
      Sv.execute_all_tests rows outcome = some s → s.pass_rate.isSome = true) := by
  refine ⟨?_, ?_, ?_, ?_, ?_⟩
  · intro rs
    exact ⟨rfl, sumCount_eq_countP _ rs, sumCount_eq_countP _ rs⟩
  · simp [Fw.generate_report_summary]
  · intro rs
    exact ⟨sumCount_eq_countP _ rs, sumCount_eq_countP _ rs, sumCount_eq_countP _ rs⟩
  · simp [Bh.print_summary]
  · intro rows outcome s h
    by_cases he : (Sv.read_master_sheet rows).isEmpty
    · simp [Sv.execute_all_tests, he] at h
    · simp only [Sv.execute_all_tests, he, Bool.false_eq_true, if_false,
        Option.some.injEq] at h
      subst h
      simp only [Sv.pass_rate_expr, pyDivQ]
      have hlen : (Sv.read_master_sheet rows).length ≠ 0 := by
        simpa [List.isEmpty_iff, List.length_eq_zero] using he
      rw [if_neg (by exact_mod_cast hlen)]
      rfl

/-- C10 counterexample: the selenium pass-rate expression at zero accumulated
    results is a division error, not a reported rate of 0. -/
theorem c10_summary_counterexample :
    Sv.pass_rate_expr 0 0 = none ∧ Sv.pass_rate_expr 0 0 ≠ some 0 := by
  constructor
  · simp [Sv.pass_rate_expr, pyDivQ]
  · simp [Sv.pass_rate_expr, pyDivQ]

/-- C10 witness: the amended theorem on a one-row master sheet. -/
theorem c10_summary_witness :
    ∃ s, Sv.execute_all_tests svRowsOne (fun _ => true) = some s
      ∧ s.pass_rate.isSome = true := by
  refine ⟨_, rfl, c10_summary_amended.2.2.2.2 svRowsOne (fun _ => true) _ rfl⟩
